import Mathlib

/-!
Shallow embedding of the company-mapping repository (src/tasks/validation.py
and src/tasks/mapping.py) and proofs about its specification claims.

Python strings are modelled as Lean strings; the Python string operations
used by the code (str.split with a non-empty separator, str.strip,
str.join, f-string concatenation) are re-implemented structurally below so
that they mirror CPython semantics and reduce inside the kernel.
Python list indexing, which raises IndexError out of range, is modelled by
Option-valued access; a raised exception is an Except error or a none.
-/

namespace CompanyMapping

/-- Whitespace as recognised by Python str.strip (the ASCII part used here). -/
def pyIsSpace (c : Char) : Bool :=
  c = ' ' || c = '\t' || c = '\n' || c = '\x0b' || c = '\x0c' || c = '\r'

/-- Python str.strip: drop leading and trailing whitespace. -/
def pyStrip (s : String) : String :=
  String.mk (((s.data.dropWhile pyIsSpace).reverse.dropWhile pyIsSpace).reverse)

/-- Fuel-driven worker for Python str.split with a non-empty separator:
left-to-right scan, non-overlapping matches, empty pieces kept.
The fuel is only there to make the recursion structural; any fuel at least
the length of the scanned list computes the true result. -/
def pySplitGo (sep : List Char) : Nat → List Char → List Char → List (List Char)
  | 0, rest, acc => [acc.reverse ++ rest]
  | _ + 1, [], acc => [acc.reverse]
  | fuel + 1, c :: rest, acc =>
    if sep.isPrefixOf (c :: rest) then
      acc.reverse :: pySplitGo sep fuel ((c :: rest).drop sep.length) []
    else
      pySplitGo sep fuel rest (c :: acc)

/-- Python str.split(sep) for a non-empty separator sep. -/
def pySplit (s sep : String) : List String :=
  (pySplitGo sep.data (s.data.length + 1) s.data []).map String.mk

/-- Python sep.join(xs). -/
def pyJoin (sep : String) : List String → String
  | [] => ""
  | [x] => x
  | x :: y :: xs => x ++ sep ++ pyJoin sep (y :: xs)

/-- Python list indexing xs[i], none when i is out of range (IndexError). -/
def pyIndex (xs : List α) (i : Nat) : Option α :=
  xs.get? i

/-- The extraction body of parse_openai_response (validation.py lines
191-206), before the catch-all except: splits the response into lines,
takes segment [1] of each relevant line split on ": ", strips it, and
reads the explanation only when the agreement is "Disagree" and a third
line exists.  Every out-of-range index raises, so each access is matched;
a none is any exception escaping this body. -/
def parse_openai_response_body (response : String) : Option (String × String × String) :=
  match pyIndex (pySplit response "\n") 0 with
  | none => none
  | some line0 =>
  match pyIndex (pySplit line0 ": ") 1 with
  | none => none
  | some agreement0 =>
  match pyIndex (pySplit response "\n") 1 with
  | none => none
  | some line1 =>
  match pyIndex (pySplit line1 ": ") 1 with
  | none => none
  | some strategy0 =>
  if pyStrip agreement0 = "Disagree" ∧ (pySplit response "\n").length > 2 then
    match pyIndex (pySplit response "\n") 2 with
    | none => none
    | some line2 =>
    match pyIndex (pySplit line2 ": ") 1 with
    | none => none
    | some explanation0 =>
      some (pyStrip agreement0, pyStrip strategy0, pyStrip explanation0)
  else
    some (pyStrip agreement0, pyStrip strategy0, "")

/-- Indexing position 0 of a two-element list. -/
theorem pyIndex_pair_zero {α : Type} (a b : α) : pyIndex [a, b] 0 = some a := rfl

/-- Indexing position 1 of a two-element list. -/
theorem pyIndex_pair_one {α : Type} (a b : α) : pyIndex [a, b] 1 = some b := rfl

/-- parse_openai_response (validation.py lines 180-210): the extraction
body wrapped in the try/except that turns any exception into the sentinel
triple. -/
def parse_openai_response (response : String) : String × String × String :=
  (parse_openai_response_body response).getD ("Error", "Error", "Error")

/-!
Geocoding client (src/tasks/mapping.py, get_osm_coordinates).
The HTTP transport is injected as a function from the attempt index to the
response; a response carries the status code and the already-float-parsed
list of results (lat, lon as exact rationals, standing for the floats the
source parses out of the JSON).  Besides the returned pair the embedding
records the sequence of time.sleep durations and the number of HTTP
requests issued, so that absence of network traffic and the backoff
schedule are provable facts.
-/

/-- One HTTP response from the geocoding endpoint: status code plus the
parsed JSON array of results, each already reduced to its lat/lon pair. -/
structure HttpResponse where
  status : Nat
  results : List (ℚ × ℚ)
deriving DecidableEq

/-- The retry loop of get_osm_coordinates (mapping.py lines 21-40): on a
200 with a non-empty body return the lat/lon of the first result; on a 429 or
any other failure sleep the current backoff, double it, and retry; when
the attempts run out return (None, None).  Output: the (lat, lon) pair as
Python returns it, the list of sleep durations in order, and the number of
requests issued. -/
def get_osm_attempts (transport : Nat → HttpResponse) :
    Nat → Nat → Nat → (Option ℚ × Option ℚ) × List Nat × Nat
  | 0, _, _ => ((none, none), [], 0)
  | fuel + 1, attempt, backoff_factor =>
    let response := transport attempt
    if response.status = 200 ∧ response.results ≠ [] then
      (((pyIndex response.results 0).map Prod.fst,
        (pyIndex response.results 0).map Prod.snd), [], 1)
    else
      let rest := get_osm_attempts transport fuel (attempt + 1) (backoff_factor * 2)
      (rest.1, backoff_factor :: rest.2.1, rest.2.2 + 1)

/-- get_osm_coordinates (mapping.py lines 14-40): answer from the cache
when the cache is truthy (non-empty) and holds the city, otherwise run the
retry loop.  backoff_factor defaults to 1 and retries to 5 at the call
sites. -/
def get_osm_coordinates (city : String) (cache : List (String × (ℚ × ℚ)))
    (transport : Nat → HttpResponse) (retries : Nat := 5) (backoff_factor : Nat := 1) :
    (Option ℚ × Option ℚ) × List Nat × Nat :=
  match cache, cache.lookup city with
  | _ :: _, some coords => ((some coords.1, some coords.2), [], 0)
  | _, _ => get_osm_attempts transport retries 0 backoff_factor

/-!
Row processor (src/tasks/validation.py, process_csv_and_save).
The OpenAI client is injected as a function from the constructed prompt to
either the raw response text or an exception message (a transport failure
propagates as an exception and is caught by the per-row handler).  The
response cache is an association list from the composite cache key to raw
text; its in-place dict mutation together with the save_cache after every
miss is modelled by threading the updated list.  The embedding also counts
the client invocations so that cache hits provably issue no call.
-/

/-- The prompt assembled by construct_prompt.  Prompt construction lives in
src/openai_request, an external collaborator; only its five inputs matter
here, so the prompt is the record of those inputs. -/
structure Prompt where
  company_name : String
  city : String
  country : String
  strategy_code : String
  short_description : String
deriving DecidableEq

/-- One input row with the fields process_csv_and_save reads. -/
structure Row where
  company_name : String
  city : String
  country : String
  re_strategy_codes : String
  short_description : String
deriving DecidableEq

/-- The response cache: composite key to raw response text. -/
abbrev RespCache := List (String × String)

/-- Outcome of a Python block that may raise: the value, the cache as it
stands when the block ends (mutations made before a raise survive, as with
the in-place dict in the source), and the client calls made so far. -/
inductive PyOutcome (α : Type) where
  | ok (val : α) (cache : RespCache) (calls : Nat)
  | exn (msg : String) (cache : RespCache) (calls : Nat)
deriving DecidableEq

/-- get_cache_key (validation.py lines 74-78). -/
def get_cache_key (company_name city country strategy_code : String) : String :=
  company_name ++ "_" ++ city ++ "_" ++ country ++ "_" ++ strategy_code

/-- validate_strategy_code (validation.py lines 31-38): membership of the
code among the keys of the strategy dictionary. -/
def validate_strategy_code (strategy_code : String) (strategy_dict : List String) : Bool :=
  strategy_dict.contains strategy_code

/-- handle_row_error (validation.py lines 40-45): logs the row and the
error message and returns a fixed marker string. -/
def handle_row_error (row : Row) (error_message : String) : String :=
  "Error in OpenAI response"

/-- The per-strategy-code body of the row loop (validation.py lines
118-151): an unknown code yields the Invalid triple with no cache or
client interaction; otherwise the composite key is looked up in the cache
and, on a miss, the client is called, the response cached (and the cache
file saved), and in either case the response is parsed. -/
def process_strategy_code (strategy_dict : List String)
    (openai_client : Prompt → Except String String) (row : Row) (strategy_code : String)
    (cache : RespCache) (calls : Nat) : PyOutcome (String × String × String) :=
  if ¬ validate_strategy_code strategy_code strategy_dict then
    .ok ("Invalid", "Invalid strategy code: " ++ strategy_code, "") cache calls
  else
    let cache_key := get_cache_key row.company_name row.city row.country strategy_code
    match cache.lookup cache_key with
    | some response =>
      .ok (parse_openai_response response) cache calls
    | none =>
      let messages : Prompt :=
        ⟨row.company_name, row.city, row.country, strategy_code, row.short_description⟩
      match openai_client messages with
      | .error msg => .exn msg cache calls
      | .ok response =>
        .ok (parse_openai_response response) ((cache_key, response) :: cache) (calls + 1)

/-- The inner loop over the strategy codes of one row, accumulating the
row_agreements / row_strategies / row_explanations lists. -/
def process_strategy_codes (strategy_dict : List String)
    (openai_client : Prompt → Except String String) (row : Row) :
    List String → RespCache → Nat → PyOutcome (List (String × String × String))
  | [], cache, calls => .ok [] cache calls
  | strategy_code :: rest, cache, calls =>
    match process_strategy_code strategy_dict openai_client row strategy_code cache calls with
    | .exn msg cache cls => .exn msg cache cls
    | .ok triple cache cls =>
      match process_strategy_codes strategy_dict openai_client row rest cache cls with
      | .exn msg cache2 cls2 => .exn msg cache2 cls2
      | .ok triples cache2 cls2 => .ok (triple :: triples) cache2 cls2

/-- The try-block of the row loop (validation.py lines 105-156): split the
codes on ", ", process each, and join the three result lists with ", ". -/
def process_row (strategy_dict : List String)
    (openai_client : Prompt → Except String String) (row : Row)
    (cache : RespCache) (calls : Nat) : PyOutcome (String × String × String) :=
  let strategy_codes := pySplit row.re_strategy_codes ", "
  match process_strategy_codes strategy_dict openai_client row strategy_codes cache calls with
  | .exn msg cache cls => .exn msg cache cls
  | .ok triples cache cls =>
    .ok (pyJoin ", " (triples.map (fun t => t.1)),
         pyJoin ", " (triples.map (fun t => t.2.1)),
         pyJoin ", " (triples.map (fun t => t.2.2))) cache cls

/-- The row loop with its per-row except handler (validation.py lines
104-161): a row whose processing raises contributes the triple
("Error", "Error", handle_row_error row msg) and the loop goes on with the
next row over the cache as the failed row left it. -/
def process_rows (strategy_dict : List String)
    (openai_client : Prompt → Except String String) :
    List Row → RespCache → Nat →
    (List String × List String × List String) × RespCache × Nat
  | [], cache, calls => (([], [], []), cache, calls)
  | row :: rest, cache, calls =>
    match process_row strategy_dict openai_client row cache calls with
    | .ok (a, s, e) cache1 calls1 =>
      let result := process_rows strategy_dict openai_client rest cache1 calls1
      ((a :: result.1.1, s :: result.1.2.1, e :: result.1.2.2), result.2)
    | .exn msg cache1 calls1 =>
      let result := process_rows strategy_dict openai_client rest cache1 calls1
      (("Error" :: result.1.1, "Error" :: result.1.2.1,
        handle_row_error row msg :: result.1.2.2), result.2)

/-- The post-loop row-count check (validation.py lines 163-165): a length
mismatch between the accumulated responses and the DataFrame raises
ValueError, aborting the job; otherwise the three columns are appended and
the output CSV written. -/
def check_row_count (openai_agreements : List String) (df_len : Nat) : Except String Unit :=
  if openai_agreements.length ≠ df_len then
    .error "Length of OpenAI responses does not match the number of rows in the DataFrame."
  else
    .ok ()

/-- process_csv_and_save after column validation (validation.py lines
98-174): run the row loop from the loaded cache, enforce the row-count
invariant, and on success return the three output columns together with
the final cache and the number of client calls. -/
def process_csv_and_save (strategy_dict : List String)
    (openai_client : Prompt → Except String String) (rows : List Row)
    (cache : RespCache) :
    Except String ((List String × List String × List String) × RespCache × Nat) :=
  let result := process_rows strategy_dict openai_client rows cache 0
  match check_row_count result.1.1 rows.length with
  | .error msg => .error msg
  | .ok _ => .ok result

/-!
Map-generation caller (src/tasks/mapping.py, generate_germany_map lines
87-100): the loop over the unique cities that fills city_coords (the set
of cities later plotted) and city_coords_cache, with a 1-second courtesy
sleep after each successful API hit.
-/

/-- State threaded through the city loop of generate_germany_map:
city_coords collects the plotted cities, city_coords_cache is the
persistent coordinate cache, courtesy_sleeps counts the time.sleep(1)
calls made after successful API hits. -/
structure MapState where
  city_coords : List (String × (ℚ × ℚ))
  city_coords_cache : List (String × (ℚ × ℚ))
  courtesy_sleeps : Nat
deriving DecidableEq

/-- Python truthiness of a geocoding result component: None is falsy and
a float is falsy exactly when it is zero. -/
def pyTruthy : Option ℚ → Bool
  | none => false
  | some q => q ≠ 0

/-- One iteration of the city loop (mapping.py lines 87-100): a cached
city is copied into city_coords; otherwise get_osm_coordinates is called
and the result is kept only if the Python condition (lat and lon) holds -
both components truthy - in which case the pair enters city_coords and the
cache and a 1-second sleep follows; otherwise the city is skipped. -/
def map_city_step (transport : Nat → HttpResponse) (st : MapState) (city : String) :
    MapState :=
  match st.city_coords_cache.lookup city with
  | some coords => { st with city_coords := (city, coords) :: st.city_coords }
  | none =>
    let latlon := (get_osm_coordinates city st.city_coords_cache transport).1
    if pyTruthy latlon.1 ∧ pyTruthy latlon.2 then
      let pair := (latlon.1.getD 0, latlon.2.getD 0)
      { city_coords := (city, pair) :: st.city_coords,
        city_coords_cache := (city, pair) :: st.city_coords_cache,
        courtesy_sleeps := st.courtesy_sleeps + 1 }
    else
      st

/-- The whole city loop of generate_germany_map over the unique cities. -/
def map_city_loop (transport : Nat → HttpResponse) (cities : List String)
    (st : MapState) : MapState :=
  cities.foldl (map_city_step transport) st

end CompanyMapping

namespace CompanyMapping

/-- C2: a city present in the coordinate cache is answered from the cache
immediately: the cached pair is returned, no sleep happens and no HTTP
request is issued, whatever the transport would have answered. -/
theorem cache_hit_no_network (city : String) (cache : List (String × (ℚ × ℚ)))
    (transport : Nat → HttpResponse) (retries backoff_factor : Nat) (coords : ℚ × ℚ)
    (h : cache.lookup city = some coords) :
    get_osm_coordinates city cache transport retries backoff_factor =
      ((some coords.1, some coords.2), [], 0) := by
  match cache, h with
  | (k, v) :: rest, h =>
    unfold get_osm_coordinates
    rw [h]

/-- C2 witness: a concrete cached city resolved with zero requests against
a transport that would always fail. -/
theorem cache_hit_no_network_witness :
    [("Berlin", ((52 : ℚ), (13 : ℚ)))].lookup "Berlin" = some ((52 : ℚ), (13 : ℚ)) ∧
    get_osm_coordinates "Berlin" [("Berlin", ((52 : ℚ), (13 : ℚ)))]
        (fun _ => ⟨500, []⟩) 5 1 =
      ((some (52 : ℚ), some (13 : ℚ)), [], 0) := by
  have h : [("Berlin", ((52 : ℚ), (13 : ℚ)))].lookup "Berlin" = some ((52 : ℚ), (13 : ℚ)) := rfl
  exact ⟨h, cache_hit_no_network "Berlin" [("Berlin", ((52 : ℚ), (13 : ℚ)))]
    (fun _ => ⟨500, []⟩) 5 1 ((52 : ℚ), (13 : ℚ)) h⟩

/-- A geocoding response the retry loop treats as a failure: any non-200
status, or a 200 whose result list is empty. -/
def osmFailure (r : HttpResponse) : Prop :=
  r.status ≠ 200 ∨ r.results = []

/-- On a failing attempt the loop sleeps the current backoff, doubles it
and recurses, counting one request. -/
theorem get_osm_attempts_fail_step (transport : Nat → HttpResponse)
    (fuel attempt backoff_factor : Nat) (h : osmFailure (transport attempt)) :
    get_osm_attempts transport (fuel + 1) attempt backoff_factor =
      ((get_osm_attempts transport fuel (attempt + 1) (backoff_factor * 2)).1,
       backoff_factor :: (get_osm_attempts transport fuel (attempt + 1) (backoff_factor * 2)).2.1,
       (get_osm_attempts transport fuel (attempt + 1) (backoff_factor * 2)).2.2 + 1) := by
  have hneg : ¬((transport attempt).status = 200 ∧ (transport attempt).results ≠ []) := by
    rintro ⟨h200, hne⟩
    rcases h with hbad | hbad
    · exact hbad h200
    · exact hne hbad
  rw [get_osm_attempts]
  simp only [if_neg hneg]

/-- The doubling backoff sequence, shifted by one doubling step. -/
theorem backoff_seq (backoff_factor n : Nat) :
    backoff_factor :: (List.range n).map (fun i => backoff_factor * 2 * 2 ^ i) =
    (List.range (n + 1)).map (fun i => backoff_factor * 2 ^ i) := by
  rw [List.range_succ_eq_map, List.map_cons, List.map_map]
  refine congrArg₂ List.cons (by simp) (List.map_congr_left ?_)
  intro i _
  simp only [Function.comp_apply, pow_succ]
  ring

/-- When every attempt in the window fails, the loop returns (None, None)
after exactly fuel requests, having slept the doubling backoff sequence. -/
theorem get_osm_attempts_all_fail (transport : Nat → HttpResponse) :
    ∀ (fuel attempt backoff_factor : Nat),
    (∀ i, i < fuel → osmFailure (transport (attempt + i))) →
    get_osm_attempts transport fuel attempt backoff_factor =
      ((none, none), (List.range fuel).map (fun i => backoff_factor * 2 ^ i), fuel) := by
  intro fuel
  induction fuel with
  | zero => intro attempt backoff_factor _; rfl
  | succ n ih =>
    intro attempt backoff_factor h
    rw [get_osm_attempts_fail_step transport n attempt backoff_factor
        (by simpa using h 0 (Nat.succ_pos n))]
    rw [ih (attempt + 1) (backoff_factor * 2)
        (fun i hi => by simpa [Nat.add_assoc, Nat.add_comm 1 i] using h (i + 1) (by omega))]
    rw [backoff_seq]

/-- C3: a failing attempt sleeps the current backoff, doubles it and
retries; and for an uncached city whose every attempt fails (429, other
non-200, or empty 200), resolve sleeps the doubling sequence starting at
1 and returns (None, None) after exactly the allowed number of attempts. -/
theorem retry_backoff_then_not_found :
    (∀ (transport : Nat → HttpResponse) (fuel attempt backoff_factor : Nat),
      osmFailure (transport attempt) →
      get_osm_attempts transport (fuel + 1) attempt backoff_factor =
        ((get_osm_attempts transport fuel (attempt + 1) (backoff_factor * 2)).1,
         backoff_factor :: (get_osm_attempts transport fuel (attempt + 1) (backoff_factor * 2)).2.1,
         (get_osm_attempts transport fuel (attempt + 1) (backoff_factor * 2)).2.2 + 1))
    ∧ (∀ (city : String) (cache : List (String × (ℚ × ℚ))) (transport : Nat → HttpResponse)
        (retries : Nat),
      cache.lookup city = none →
      (∀ i, i < retries → osmFailure (transport i)) →
      get_osm_coordinates city cache transport retries 1 =
        ((none, none), (List.range retries).map (fun i => 2 ^ i), retries)) := by
  refine ⟨get_osm_attempts_fail_step, ?_⟩
  intro city cache transport retries hmiss hfail
  have hbody := get_osm_attempts_all_fail transport retries 0 1 (by simpa using hfail)
  simp only [one_mul] at hbody
  unfold get_osm_coordinates
  cases cache with
  | nil => exact hbody
  | cons p rest => rw [hmiss]; exact hbody

/-- C3 witness: five straight 429 responses for an uncached city produce
the sleep sequence 1, 2, 4, 8, 16 and a (None, None) result. -/
theorem retry_backoff_then_not_found_witness :
    ([] : List (String × (ℚ × ℚ))).lookup "Atlantis" = none ∧
    (∀ i, i < 5 → osmFailure ((fun _ => (⟨429, []⟩ : HttpResponse)) i)) ∧
    get_osm_coordinates "Atlantis" [] (fun _ => ⟨429, []⟩) 5 1 =
      ((none, none), [1, 2, 4, 8, 16], 5) := by
  refine ⟨rfl, fun i _ => Or.inl (show (429 : Nat) ≠ 200 by decide), ?_⟩
  have h := retry_backoff_then_not_found.2 "Atlantis" [] (fun _ => ⟨429, []⟩) 5 rfl
      (fun i _ => Or.inl (show (429 : Nat) ≠ 200 by decide))
  simpa using h

/-- C4: whenever the extraction body succeeds, either the agreement is
exactly "Disagree" and a third line exists, or the explanation is the
empty string - so a present third line is ignored for any other
agreement value and the explanation can be non-empty only in the
Disagree-with-third-line case. -/
theorem explanation_only_on_disagree (response agreement strategy explanation : String)
    (h : parse_openai_response_body response = some (agreement, strategy, explanation)) :
    (agreement = "Disagree" ∧ (pySplit response "\n").length > 2) ∨ explanation = "" := by
  unfold parse_openai_response_body at h
  split at h
  · exact absurd h (by simp)
  split at h
  · exact absurd h (by simp)
  split at h
  · exact absurd h (by simp)
  split at h
  · exact absurd h (by simp)
  split at h
  · rename_i hcond
    split at h
    · exact absurd h (by simp)
    split at h
    · exact absurd h (by simp)
    simp only [Option.some.injEq, Prod.mk.injEq] at h
    refine Or.inl ⟨?_, hcond.2⟩
    rw [← h.1]
    exact hcond.1
  · simp only [Option.some.injEq, Prod.mk.injEq] at h
    exact Or.inr h.2.2.symm

/-- C4 witness: an Agree response carrying a third line still parses with
an empty explanation. -/
theorem explanation_only_on_disagree_witness :
    parse_openai_response_body "Agreement: Agree\nStrategy: R2\nExplanation: extra"
      = some ("Agree", "R2", "") ∧
    (("Agree" = "Disagree" ∧
      (pySplit "Agreement: Agree\nStrategy: R2\nExplanation: extra" "\n").length > 2) ∨
      ("" : String) = "") :=
  ⟨by decide, explanation_only_on_disagree
    "Agreement: Agree\nStrategy: R2\nExplanation: extra" "Agree" "R2" "" (by decide)⟩

/-- C5: any exception escaping the extraction body (a none result) makes
parse_openai_response return the sentinel triple instead of propagating;
on "garbage" in particular the sentinel comes back. -/
theorem parse_failure_sentinel :
    (∀ response : String, parse_openai_response_body response = none →
      parse_openai_response response = ("Error", "Error", "Error"))
    ∧ parse_openai_response "garbage" = ("Error", "Error", "Error") := by
  constructor
  · intro response h
    unfold parse_openai_response
    rw [h]
    rfl
  · decide

/-- C5 witness: the extraction body fails on "garbage" and the wrapper
turns that failure into the sentinel triple. -/
theorem parse_failure_sentinel_witness :
    parse_openai_response_body "garbage" = none ∧
    parse_openai_response "garbage" = ("Error", "Error", "Error") :=
  ⟨by decide, parse_failure_sentinel.1 "garbage" (by decide)⟩

/-- C6: an unknown strategy code makes the per-code step emit exactly the
Invalid triple, with the cache and the client call count untouched. -/
theorem invalid_code_no_interaction (strategy_dict : List String)
    (openai_client : Prompt → Except String String) (row : Row) (strategy_code : String)
    (cache : RespCache) (calls : Nat)
    (h : validate_strategy_code strategy_code strategy_dict = false) :
    process_strategy_code strategy_dict openai_client row strategy_code cache calls =
      .ok ("Invalid", "Invalid strategy code: " ++ strategy_code, "") cache calls := by
  unfold process_strategy_code
  rw [if_pos]
  simp [h]

/-- C6 witness: the code R9 is unknown to the one-entry dictionary, and
the step emits the Invalid triple over an unchanged empty cache with zero
calls, against a client that would diverge into an error. -/
theorem invalid_code_no_interaction_witness :
    validate_strategy_code "R9" ["R2"] = false ∧
    process_strategy_code ["R2"] (fun _ => .error "never called")
        ⟨"ACME", "Berlin", "Germany", "R9", "desc"⟩ "R9" [] 0 =
      .ok ("Invalid", "Invalid strategy code: R9", "") [] 0 :=
  ⟨by decide, invalid_code_no_interaction ["R2"] (fun _ => .error "never called")
    ⟨"ACME", "Berlin", "Germany", "R9", "desc"⟩ "R9" [] 0 (by decide)⟩

/-- C7 counterexample: a client failure with message "boom" is recorded in
the explanation column as the fixed marker "Error in OpenAI response",
not as the message of the escaping exception. -/
theorem row_error_counterexample :
    process_row ["R2"] (fun _ => .error "boom")
        ⟨"ACME", "Berlin", "Germany", "R2", "desc"⟩ [] 0 = .exn "boom" [] 0
    ∧ (process_rows ["R2"] (fun _ => .error "boom")
        [⟨"ACME", "Berlin", "Germany", "R2", "desc"⟩] [] 0).1.2.2
        = ["Error in OpenAI response"]
    ∧ ("Error in OpenAI response" : String) ≠ "boom" := by
  refine ⟨by decide, by decide, by decide⟩

/-- C7 as amended: a row whose processing raises contributes the triple
("Error", "Error", "Error in OpenAI response") - the fixed marker returned
by handle_row_error, the exception message being only logged - and the
loop continues with the remaining rows from the cache state the failed row
left behind. -/
theorem row_error_marker_and_continue (strategy_dict : List String)
    (openai_client : Prompt → Except String String) (row : Row) (rest : List Row)
    (cache cache1 : RespCache) (calls calls1 : Nat) (msg : String)
    (h : process_row strategy_dict openai_client row cache calls = .exn msg cache1 calls1) :
    process_rows strategy_dict openai_client (row :: rest) cache calls =
      ((("Error" :: (process_rows strategy_dict openai_client rest cache1 calls1).1.1,
         "Error" :: (process_rows strategy_dict openai_client rest cache1 calls1).1.2.1,
         "Error in OpenAI response"
           :: (process_rows strategy_dict openai_client rest cache1 calls1).1.2.2)),
       (process_rows strategy_dict openai_client rest cache1 calls1).2) := by
  conv_lhs => rw [process_rows]
  rw [h]
  rfl

/-- C7 amended claim witness: the boom-raising client row yields the fixed
marker triple and processing continues with the (empty) remainder. -/
theorem row_error_marker_and_continue_witness :
    process_row ["R2"] (fun _ => .error "boom")
        ⟨"ACME", "Berlin", "Germany", "R2", "desc"⟩ [] 0 = .exn "boom" [] 0 ∧
    process_rows ["R2"] (fun _ => .error "boom")
        [⟨"ACME", "Berlin", "Germany", "R2", "desc"⟩] [] 0 =
      ((["Error"], ["Error"], ["Error in OpenAI response"]), [], 0) := by
  refine ⟨by decide, ?_⟩
  have h := row_error_marker_and_continue ["R2"] (fun _ => .error "boom")
    ⟨"ACME", "Berlin", "Germany", "R2", "desc"⟩ [] [] [] 0 0 "boom" (by decide)
  simpa using h

/-- C8: the row loop accumulates exactly one entry per input row in each
of the three columns, and the post-loop check raises the fatal ValueError
whenever the accumulated agreement count differs from the row count. -/
theorem row_count_invariant :
    (∀ (strategy_dict : List String) (openai_client : Prompt → Except String String)
      (rows : List Row) (cache : RespCache) (calls : Nat),
      (process_rows strategy_dict openai_client rows cache calls).1.1.length = rows.length ∧
      (process_rows strategy_dict openai_client rows cache calls).1.2.1.length = rows.length ∧
      (process_rows strategy_dict openai_client rows cache calls).1.2.2.length = rows.length)
    ∧ (∀ (openai_agreements : List String) (df_len : Nat),
      openai_agreements.length ≠ df_len →
      check_row_count openai_agreements df_len =
        .error "Length of OpenAI responses does not match the number of rows in the DataFrame.") := by
  constructor
  · intro strategy_dict openai_client rows
    induction rows with
    | nil => intro cache calls; exact ⟨rfl, rfl, rfl⟩
    | cons row rest ih =>
      intro cache calls
      unfold process_rows
      cases hrow : process_row strategy_dict openai_client row cache calls with
      | ok val cache1 calls1 =>
        obtain ⟨a, s, e⟩ := val
        simpa [List.length_cons] using ih cache1 calls1
      | exn msg cache1 calls1 =>
        simpa [List.length_cons] using ih cache1 calls1
  · intro openai_agreements df_len h
    unfold check_row_count
    rw [if_pos h]

/-- C8 witness: a concrete two-row batch produces two entries per column,
and a truncated single-entry accumulation against two rows raises the
fatal error. -/
theorem row_count_invariant_witness :
    (process_rows ["R2"] (fun _ => .error "down")
        [⟨"A", "B", "C", "R2", "d"⟩, ⟨"E", "F", "G", "R9", "h"⟩] [] 0).1.1.length = 2 ∧
    (["only one"] : List String).length ≠ 2 ∧
    check_row_count ["only one"] 2 =
      .error "Length of OpenAI responses does not match the number of rows in the DataFrame." :=
  ⟨(row_count_invariant.1 ["R2"] (fun _ => .error "down")
      [⟨"A", "B", "C", "R2", "d"⟩, ⟨"E", "F", "G", "R9", "h"⟩] [] 0).1,
   by decide, row_count_invariant.2 ["only one"] 2 (by decide)⟩

/-- C10: an uncached city whose first geocoding attempt succeeds with a
latitude or longitude of exactly zero is treated as a failed lookup by the
map-generation loop - the Python truthiness test rejects 0.0 - so the
state is left untouched: the city enters neither the plotted city_coords
nor the coordinate cache and no courtesy sleep happens. -/
theorem zero_coordinate_skipped (transport : Nat → HttpResponse) (st : MapState)
    (city : String) (lat lon : ℚ) (rest : List (ℚ × ℚ))
    (hmiss : st.city_coords_cache.lookup city = none)
    (hresp : transport 0 = ⟨200, (lat, lon) :: rest⟩)
    (hzero : lat = 0 ∨ lon = 0) :
    map_city_step transport st city = st := by
  have hget : (get_osm_coordinates city st.city_coords_cache transport).1 =
      (some lat, some lon) := by
    unfold get_osm_coordinates
    have hbody : (get_osm_attempts transport 5 0 1).1 = (some lat, some lon) := by
      rw [get_osm_attempts]
      rw [if_pos]
      · rw [hresp]
        rfl
      · rw [hresp]
        exact ⟨rfl, by simp⟩
    cases hcache : st.city_coords_cache with
    | nil => exact hbody
    | cons p ps =>
      rw [hcache] at hmiss
      rw [hmiss]
      exact hbody
  unfold map_city_step
  rw [hmiss, hget]
  rw [if_neg]
  rintro ⟨hlat, hlon⟩
  rcases hzero with hz | hz
  · rw [hz] at hlat
    simp [pyTruthy] at hlat
  · rw [hz] at hlon
    simp [pyTruthy] at hlon

/-- C10 witness: a 200 response placing the city at latitude 0 leaves the
loop state untouched. -/
theorem zero_coordinate_skipped_witness :
    (MapState.mk [] [] 0).city_coords_cache.lookup "Atlantis" = none ∧
    ((fun _ => (⟨200, [((0 : ℚ), (13 : ℚ))]⟩ : HttpResponse)) 0 : HttpResponse)
      = ⟨200, [((0 : ℚ), (13 : ℚ))]⟩ ∧
    map_city_step (fun _ => ⟨200, [((0 : ℚ), (13 : ℚ))]⟩) (MapState.mk [] [] 0) "Atlantis"
      = MapState.mk [] [] 0 :=
  ⟨rfl, rfl, zero_coordinate_skipped (fun _ => ⟨200, [((0 : ℚ), (13 : ℚ))]⟩)
    (MapState.mk [] [] 0) "Atlantis" 0 13 [] rfl rfl (Or.inl rfl)⟩

/-- A strategy code whose composite key is cached (or which is invalid) is
handled without touching the cache, the call counter or the client: the
produced triple does not depend on the client at all. -/
theorem process_strategy_code_cached (strategy_dict : List String) (row : Row)
    (strategy_code : String) (cache : RespCache) (calls : Nat)
    (h : validate_strategy_code strategy_code strategy_dict = true →
      (cache.lookup
        (get_cache_key row.company_name row.city row.country strategy_code)).isSome) :
    ∃ t, ∀ openai_client,
      process_strategy_code strategy_dict openai_client row strategy_code cache calls =
        .ok t cache calls := by
  by_cases hv : validate_strategy_code strategy_code strategy_dict = true
  · obtain ⟨response, hresp⟩ := Option.isSome_iff_exists.mp (h hv)
    refine ⟨parse_openai_response response, fun openai_client => ?_⟩
    unfold process_strategy_code
    rw [if_neg (by simp [hv])]
    simp only [hresp]
  · refine ⟨("Invalid", "Invalid strategy code: " ++ strategy_code, ""),
      fun openai_client => ?_⟩
    unfold process_strategy_code
    rw [if_pos (by simpa using hv)]

/-- Over a list of codes each of which is invalid or cached, the inner
loop leaves the cache and the call counter unchanged and its output does
not depend on the client. -/
theorem process_strategy_codes_cached (strategy_dict : List String) (row : Row)
    (codes : List String) (cache : RespCache) (calls : Nat)
    (h : ∀ code ∈ codes, validate_strategy_code code strategy_dict = true →
      (cache.lookup (get_cache_key row.company_name row.city row.country code)).isSome) :
    ∃ ts, ∀ openai_client,
      process_strategy_codes strategy_dict openai_client row codes cache calls =
        .ok ts cache calls := by
  induction codes with
  | nil => exact ⟨[], fun _ => rfl⟩
  | cons code rest ih =>
    obtain ⟨t, ht⟩ := process_strategy_code_cached strategy_dict row code cache calls
      (h code (List.mem_cons_self code rest))
    obtain ⟨ts, hts⟩ := ih (fun c hc => h c (List.mem_cons_of_mem code hc))
    refine ⟨t :: ts, fun openai_client => ?_⟩
    unfold process_strategy_codes
    simp only [ht openai_client, hts openai_client]

/-- A row all of whose valid codes are cached is processed with the cache
and the call counter unchanged, independently of the client. -/
theorem process_row_cached (strategy_dict : List String) (row : Row)
    (cache : RespCache) (calls : Nat)
    (h : ∀ code ∈ pySplit row.re_strategy_codes ", ",
      validate_strategy_code code strategy_dict = true →
      (cache.lookup (get_cache_key row.company_name row.city row.country code)).isSome) :
    ∃ t, ∀ openai_client,
      process_row strategy_dict openai_client row cache calls = .ok t cache calls := by
  obtain ⟨ts, hts⟩ := process_strategy_codes_cached strategy_dict row
    (pySplit row.re_strategy_codes ", ") cache calls h
  refine ⟨(pyJoin ", " (ts.map (fun t => t.1)),
           pyJoin ", " (ts.map (fun t => t.2.1)),
           pyJoin ", " (ts.map (fun t => t.2.2))), fun openai_client => ?_⟩
  unfold process_row
  simp only [hts openai_client]

/-- The whole row loop over a fully cached input leaves the cache and the
call counter unchanged, with columns independent of the client. -/
theorem process_rows_cached (strategy_dict : List String) (rows : List Row)
    (cache : RespCache) (calls : Nat)
    (H : ∀ row ∈ rows, ∀ code ∈ pySplit row.re_strategy_codes ", ",
      validate_strategy_code code strategy_dict = true →
      (cache.lookup (get_cache_key row.company_name row.city row.country code)).isSome) :
    ∃ cols, ∀ openai_client,
      process_rows strategy_dict openai_client rows cache calls = (cols, cache, calls) := by
  induction rows with
  | nil => exact ⟨([], [], []), fun _ => rfl⟩
  | cons row rest ih =>
    obtain ⟨t, ht⟩ := process_row_cached strategy_dict row cache calls
      (H row (List.mem_cons_self row rest))
    obtain ⟨cols, hcols⟩ := ih (fun r hr => H r (List.mem_cons_of_mem row hr))
    obtain ⟨a, s, e⟩ := t
    refine ⟨(a :: cols.1, s :: cols.2.1, e :: cols.2.2), fun openai_client => ?_⟩
    conv_lhs => rw [process_rows]
    simp only [ht openai_client, hcols openai_client]

/-- C9: over an input whose every valid strategy code already has its
composite key in the response cache, the row loop returns the cache
unchanged, makes zero client calls, and produces columns that do not
depend on the client - so a second run over the same input and cache is
identical to the first and never invokes the classification client. -/
theorem cached_run_idempotent (strategy_dict : List String)
    (openai_client openai_client2 : Prompt → Except String String)
    (rows : List Row) (cache : RespCache)
    (H : ∀ row ∈ rows, ∀ code ∈ pySplit row.re_strategy_codes ", ",
      validate_strategy_code code strategy_dict = true →
      (cache.lookup (get_cache_key row.company_name row.city row.country code)).isSome) :
    (process_rows strategy_dict openai_client rows cache 0).2.1 = cache ∧
    (process_rows strategy_dict openai_client rows cache 0).2.2 = 0 ∧
    process_rows strategy_dict openai_client2 rows cache 0 =
      process_rows strategy_dict openai_client rows cache 0 := by
  obtain ⟨cols, hcols⟩ := process_rows_cached strategy_dict rows cache 0 H
  rw [hcols openai_client, hcols openai_client2]
  exact ⟨rfl, rfl, rfl⟩

/-- C9 witness: a one-row input whose single key is pre-cached is
processed identically by two clients that would answer differently, with
the cache returned as-is and zero calls made. -/
theorem cached_run_idempotent_witness :
    (∀ row ∈ [(⟨"ACME", "Berlin", "Germany", "R2", "d"⟩ : Row)],
      ∀ code ∈ pySplit row.re_strategy_codes ", ",
      validate_strategy_code code ["R2"] = true →
      (([("ACME_Berlin_Germany_R2", "Agreement: Agree\nStrategy: R2")] : RespCache).lookup
        (get_cache_key row.company_name row.city row.country code)).isSome) ∧
    (process_rows ["R2"] (fun _ => .error "down")
        [⟨"ACME", "Berlin", "Germany", "R2", "d"⟩]
        [("ACME_Berlin_Germany_R2", "Agreement: Agree\nStrategy: R2")] 0).2.1 =
      [("ACME_Berlin_Germany_R2", "Agreement: Agree\nStrategy: R2")] ∧
    (process_rows ["R2"] (fun _ => .error "down")
        [⟨"ACME", "Berlin", "Germany", "R2", "d"⟩]
        [("ACME_Berlin_Germany_R2", "Agreement: Agree\nStrategy: R2")] 0).2.2 = 0 ∧
    process_rows ["R2"] (fun _ => .ok "other answer")
        [⟨"ACME", "Berlin", "Germany", "R2", "d"⟩]
        [("ACME_Berlin_Germany_R2", "Agreement: Agree\nStrategy: R2")] 0 =
      process_rows ["R2"] (fun _ => .error "down")
        [⟨"ACME", "Berlin", "Germany", "R2", "d"⟩]
        [("ACME_Berlin_Germany_R2", "Agreement: Agree\nStrategy: R2")] 0 :=
  ⟨by decide, cached_run_idempotent ["R2"] (fun _ => .error "down")
    (fun _ => .ok "other answer") [⟨"ACME", "Berlin", "Germany", "R2", "d"⟩]
    [("ACME_Berlin_Germany_R2", "Agreement: Agree\nStrategy: R2")] (by decide)⟩

/-- A list is a Boolean prefix of itself followed by anything. -/
theorem isPrefixOf_append_self : ∀ (l r : List Char), l.isPrefixOf (l ++ r) = true := by
  intro l
  induction l with
  | nil => intro r; simp [List.isPrefixOf]
  | cons a as ih => intro r; simp [List.isPrefixOf, ih]

/-- Scanning past separator-free characters: while no character of x can
start a match (x avoids the first separator character), the splitter just
moves x into the accumulator, spending one fuel per character. -/
theorem pySplitGo_scan (s0 : Char) (stail : List Char) :
    ∀ (x : List Char) (fuel : Nat) (rest acc : List Char),
    (∀ c ∈ x, c ≠ s0) → x.length ≤ fuel →
    pySplitGo (s0 :: stail) fuel (x ++ rest) acc =
      pySplitGo (s0 :: stail) (fuel - x.length) rest (x.reverse ++ acc) := by
  intro x
  induction x with
  | nil => intro fuel rest acc _ _; simp
  | cons c cs ih =>
    intro fuel rest acc hx hlen
    obtain ⟨f, rfl⟩ : ∃ f, fuel = f + 1 := ⟨fuel - 1, by simp at hlen; omega⟩
    have hc0 : c ≠ s0 := hx c (List.mem_cons_self c cs)
    have hc : ((s0 :: stail).isPrefixOf (c :: (cs ++ rest))) = false := by
      simp only [List.isPrefixOf, Bool.and_eq_false_iff]
      exact Or.inl (by simpa [beq_eq_false_iff_ne] using fun h => hc0 h.symm)
    show pySplitGo (s0 :: stail) (f + 1) (c :: (cs ++ rest)) acc = _
    rw [pySplitGo, if_neg (by simp [hc])]
    rw [ih f rest (c :: acc) (fun d hd => hx d (List.mem_cons_of_mem c hd)) (by simp at hlen; omega)]
    congr 1
    · simp only [List.length_cons]
      omega
    · simp

/-- Hitting the separator: when the input starts with the separator the
splitter closes the accumulated chunk, drops the separator and restarts
with an empty accumulator, spending one fuel. -/
theorem pySplitGo_hit (s0 : Char) (stail rest acc : List Char) (fuel : Nat) :
    pySplitGo (s0 :: stail) (fuel + 1) (s0 :: (stail ++ rest)) acc =
      acc.reverse :: pySplitGo (s0 :: stail) fuel rest [] := by
  rw [pySplitGo, if_pos]
  · congr 2
    show (s0 :: (stail ++ rest)).drop (stail.length + 1) = rest
    simpa using List.drop_left stail rest
  · show ((s0 :: stail).isPrefixOf (s0 :: (stail ++ rest))) = true
    have h := isPrefixOf_append_self (s0 :: stail) rest
    simpa using h

/-- Exhausting a separator-free input: the splitter returns the single
chunk made of the accumulator and the whole input. -/
theorem pySplitGo_no_sep (s0 : Char) (stail : List Char) (l : List Char)
    (h : ∀ c ∈ l, c ≠ s0) (fuel : Nat) (hfuel : l.length + 1 ≤ fuel) (acc : List Char) :
    pySplitGo (s0 :: stail) fuel l acc = [(l.reverse ++ acc).reverse] := by
  calc pySplitGo (s0 :: stail) fuel l acc
      = pySplitGo (s0 :: stail) fuel (l ++ []) acc := by rw [List.append_nil]
    _ = pySplitGo (s0 :: stail) (fuel - l.length) [] (l.reverse ++ acc) :=
        pySplitGo_scan s0 stail l fuel [] acc h (by omega)
    _ = [(l.reverse ++ acc).reverse] := by
        obtain ⟨g, hg⟩ : ∃ g, fuel - l.length = g + 1 := ⟨fuel - l.length - 1, by omega⟩
        rw [hg, pySplitGo]

/-- Splitting a two-line string on the newline yields exactly the two
lines, when neither line contains a newline itself. -/
theorem pySplit_two_lines (s : String) (l1 l2 : List Char)
    (hs : s.data = l1 ++ '\n' :: l2)
    (h1 : ∀ c ∈ l1, c ≠ '\n') (h2 : ∀ c ∈ l2, c ≠ '\n') :
    pySplit s "\n" = [String.mk l1, String.mk l2] := by
  unfold pySplit
  rw [hs]
  show (pySplitGo ['\n'] ((l1 ++ '\n' :: l2).length + 1)
    (l1 ++ '\n' :: l2) []).map String.mk = _
  rw [pySplitGo_scan '\n' [] l1 _ _ _ h1
    (by simp only [List.length_append, List.length_cons]; omega)]
  have hfuel : (l1 ++ '\n' :: l2).length + 1 - l1.length = (l2.length + 1) + 1 := by
    simp only [List.length_append, List.length_cons]
    omega
  rw [hfuel, List.append_nil]
  have hshape : ('\n' :: l2) = '\n' :: (([] : List Char) ++ l2) := by simp
  rw [hshape, pySplitGo_hit '\n' [] l2 l1.reverse (l2.length + 1)]
  rw [pySplitGo_no_sep '\n' [] l2 h2 (l2.length + 1) (by omega) []]
  simp

/-- Character-level core of the Strategy-line split: with x free of
colons, position 1 of the split on ": " is exactly x, the segment between
the first and the second separator occurrence. -/
theorem strategy_field_core (x y : List Char) (hx : ∀ c ∈ x, c ≠ ':')
    (fuel : Nat) (hfuel : x.length + 11 ≤ fuel) :
    pyIndex (pySplitGo [':', ' '] fuel
      ("Strategy".data ++ (':' :: ([' '] ++ (x ++ ':' :: ([' '] ++ y))))) []) 1 = some x := by
  have h8 : ("Strategy".data).length = 8 := by decide
  have hS : ∀ c ∈ "Strategy".data, c ≠ ':' := by decide
  rw [pySplitGo_scan ':' [' '] "Strategy".data fuel _ _ hS (by omega)]
  obtain ⟨f2, hf2, hf2b⟩ : ∃ f2, fuel - ("Strategy".data).length = f2 + 1 ∧
      x.length + 1 ≤ f2 := ⟨fuel - 9, by omega, by omega⟩
  rw [hf2, pySplitGo_hit]
  rw [pySplitGo_scan ':' [' '] x f2 _ _ hx (by omega)]
  obtain ⟨f3, hf3⟩ : ∃ f3, f2 - x.length = f3 + 1 := ⟨f2 - x.length - 1, by omega⟩
  rw [hf3, pySplitGo_hit]
  simp [pyIndex]

/-- Splitting a Strategy line on the field separator at the string level:
position 1 of the split is the colon-free segment x between the first and
the second separator. -/
theorem strategy_field_is_second_segment (line : String) (x y : List Char)
    (hline : line.data = "Strategy: ".data ++ (x ++ ':' :: ' ' :: y))
    (hx : ∀ c ∈ x, c ≠ ':') :
    pyIndex (pySplit line ": ") 1 = some (String.mk x) := by
  unfold pySplit
  have hshape : "Strategy: ".data ++ (x ++ ':' :: ' ' :: y) =
      "Strategy".data ++ (':' :: ([' '] ++ (x ++ ':' :: ([' '] ++ y)))) := by
    have h0 : "Strategy: ".data = "Strategy".data ++ [':', ' '] := by decide
    rw [h0]
    simp
  rw [hline, hshape]
  have hmap : ∀ (l : List (List Char)) (i : Nat),
      pyIndex (l.map String.mk) i = (pyIndex l i).map String.mk := by
    intro l i
    simp [pyIndex]
  rw [show ((": " : String).data) = [':', ' '] from rfl]
  rw [hmap]
  rw [strategy_field_core x y hx _ ?side]
  · rfl
  case side =>
    have h8 : ("Strategy".data).length = 8 := by decide
    simp only [List.length_append, List.length_cons, List.length_singleton, h8]
    omega

/-- C1 counterexample: on a Strategy line holding the separator twice,
parse does not return the whole remainder of the line - the documented
example outputs are not what the code produces. -/
theorem parse_remainder_counterexample :
    parse_openai_response "Agreement: Agree\nStrategy: R2: Reuse" ≠ ("Agree", "R2: Reuse", "") ∧
    parse_openai_response "Agreement: Agree\nStrategy: R2: Reuse" = ("Agree", "R2", "") ∧
    parse_openai_response "Agreement: Disagree\nStrategy: R3: Recycle\nExplanation: wrong category"
      ≠ ("Disagree", "R3: Recycle", "wrong category") := by
  exact ⟨by decide, by decide, by decide⟩

/-- C1 as amended: parse splits a relevant line on every occurrence of
": " and keeps segment 1, the text between the first and the second
occurrence, not the remainder of the line.  For an Agree response whose
second line is "Strategy: " ++ x ++ ": " ++ y, with x free of colons and
both x and y free of newlines, the strategy field comes out as the
stripped x, with y discarded. -/
theorem parse_takes_second_segment (x y : String)
    (hx1 : ∀ c ∈ x.data, c ≠ ':') (hx2 : ∀ c ∈ x.data, c ≠ '\n')
    (hy : ∀ c ∈ y.data, c ≠ '\n') :
    parse_openai_response ("Agreement: Agree\nStrategy: " ++ x ++ ": " ++ y)
      = ("Agree", pyStrip x, "") := by
  have hdata : ("Agreement: Agree\nStrategy: " ++ x ++ ": " ++ y).data =
      "Agreement: Agree".data ++ '\n' ::
        ("Strategy: ".data ++ (x.data ++ ':' :: ' ' :: y.data)) := by
    have h0 : ("Agreement: Agree\nStrategy: " : String).data =
        "Agreement: Agree".data ++ '\n' :: "Strategy: ".data := by decide
    have h1 : (": " : String).data = [':', ' '] := rfl
    simp [String.data_append, h0, h1]
  have h2 : ∀ c ∈ "Strategy: ".data ++ (x.data ++ ':' :: ' ' :: y.data), c ≠ '\n' := by
    intro c hc he
    subst he
    rcases List.mem_append.mp hc with hA | hB
    · exact (by decide : ('\n' : Char) ∉ "Strategy: ".data) hA
    rcases List.mem_append.mp hB with hB1 | hB2
    · exact hx2 '\n' hB1 rfl
    rcases List.mem_cons.mp hB2 with h3 | h3
    · exact absurd h3 (by decide)
    rcases List.mem_cons.mp h3 with h4 | h4
    · exact absurd h4 (by decide)
    exact hy '\n' h4 rfl
  have hlines : pySplit ("Agreement: Agree\nStrategy: " ++ x ++ ": " ++ y) "\n" =
      ["Agreement: Agree",
       String.mk ("Strategy: ".data ++ (x.data ++ ':' :: ' ' :: y.data))] :=
    pySplit_two_lines _ _ _ hdata (by decide) h2
  have hfield1 : pyIndex (pySplit
      (String.mk ("Strategy: ".data ++ (x.data ++ ':' :: ' ' :: y.data))) ": ") 1 =
      some (String.mk x.data) :=
    strategy_field_is_second_segment _ x.data y.data rfl hx1
  have hfield0 : pyIndex (pySplit "Agreement: Agree" ": ") 1 = some "Agree" := by decide
  have hstrip : pyStrip "Agree" = "Agree" := by decide
  unfold parse_openai_response parse_openai_response_body
  rw [hlines]
  simp only [pyIndex_pair_zero, pyIndex_pair_one, hfield0, hfield1, hstrip]
  rw [if_neg (by simp)]
  rfl

/-- C1 amended claim witness: the documented input parses to the segment
between the separators, R2, stripped. -/
theorem parse_takes_second_segment_witness :
    (∀ c ∈ ("R2" : String).data, c ≠ ':') ∧ (∀ c ∈ ("R2" : String).data, c ≠ '\n') ∧
    (∀ c ∈ ("Reuse" : String).data, c ≠ '\n') ∧
    parse_openai_response "Agreement: Agree\nStrategy: R2: Reuse" = ("Agree", pyStrip "R2", "") := by
  refine ⟨by decide, by decide, by decide, ?_⟩
  have h := parse_takes_second_segment "R2" "Reuse" (by decide) (by decide) (by decide)
  rw [show ("Agreement: Agree\nStrategy: " ++ "R2" ++ ": " ++ "Reuse" : String) =
    "Agreement: Agree\nStrategy: R2: Reuse" by decide] at h
  exact h

end CompanyMapping
